import Mathlib

/-!
Formal model of the stewardship-layer repository.

Part A embeds the reference implementation
(`REFERENCE_IMPL/python/policies.py`, `stewardship_gate.py`): the
sliding-window rate limiter and the execute stage of the gate.

Part B embeds the Shammash executive service
(`core/shammash/src/app.py`): the Law evaluator, the secret sanitizer,
the outcome verifier, and the `/execute/proposal` pipeline.

Machine floats in the source (timestamps, windows, verification clocks)
are modelled as rationals; device and runtime behaviour (HTTP responses,
exception messages, wall clocks) is supplied by explicit environment
records so every function is pure and executable.
-/

/-! ## Part A: reference implementation -/

/-- `policies.PolicyDecision`: result of a policy check. -/
structure PolicyDecision where
  allowed : Bool
  reason : String
deriving Repr, DecidableEq

/-- `policies.RateLimiter`: per-actor sliding-window admission control.
The Python `_hits` dict is modelled as a total function with default `[]`
(matching `dict.setdefault(actor, [])`). -/
structure RateLimiter where
  limit : Nat
  window_seconds : Rat
  hits : String → List Rat

/-- Pointwise update of the hits dict (`self._hits[actor] = ...`). -/
def updateHits (f : String → List Rat) (a : String) (v : List Rat) : String → List Rat :=
  fun x => if x = a then v else f x

/-- `RateLimiter.accept(actor, now)` from `policies.py`.
Purges hits before `now - window_seconds`, refuses (recording no hit)
when the remaining count reaches `limit`, otherwise records `now`.
Python substitutes the wall clock when `now` is `None` or `0`; we model
an explicit caller-supplied `now` (the gate always passes `now_ts()`). -/
def RateLimiter.accept (rl : RateLimiter) (actor : String) (now : Rat) :
    PolicyDecision × RateLimiter :=
  let windowStart := now - rl.window_seconds
  let kept := (rl.hits actor).filter (fun ts => decide (windowStart ≤ ts))
  if rl.limit ≤ kept.length then
    (⟨false, ("rate limit exceeded")⟩,
     { rl with hits := updateHits rl.hits actor kept })
  else
    (⟨true, ("within rate limit")⟩,
     { rl with hits := updateHits rl.hits actor (kept ++ [now]) })

/-- A freshly constructed `RateLimiter(limit, window_seconds)`: empty history. -/
def mkRateLimiter (limit : Nat) (window_seconds : Rat) : RateLimiter :=
  ⟨limit, window_seconds, fun _ => []⟩

/-- Run a sequence of `accept` calls; returns the final limiter state and,
per call, the actor, timestamp and whether the call was admitted. -/
def runLimiter (rl : RateLimiter) : List (String × Rat) → RateLimiter × List (String × Rat × Bool)
  | [] => (rl, [])
  | (a, t) :: rest =>
      let step := rl.accept a t
      let tail := runLimiter step.2 rest
      (tail.1, (a, t, step.1.allowed) :: tail.2)

/-- Timestamps of the admitted calls of one actor, in call order. -/
def admittedTimes (a : String) (results : List (String × Rat × Bool)) : List Rat :=
  results.filterMap (fun r => if r.1 = a ∧ r.2.2 = true then some r.2.1 else none)

/-- Number of timestamps falling inside the closed window `[x, x + w]`. -/
def windCount (w x : Rat) (ts : List Rat) : Nat :=
  ts.countP (fun s => decide (x ≤ s ∧ s ≤ x + w))

/-- `stewardship_gate.Proposal` (the dataclass in `src/`): note it has no
`expected_outcome` field. -/
structure GateProposal where
  proposal_id : String
  actor : String
  action : String
  resource : String
  domain : String
  rationale : String
  rollback_plan : Option String
  trace_id : String
deriving Repr, DecidableEq

/-- `stewardship_gate.Decision` (the dataclass in `src/`): note it has no
`ttl_seconds` and no `decision_id` field. -/
structure GateDecision where
  proposal_id : String
  approved : Bool
  reason : String
  approver : String
  timestamp : Rat
deriving Repr, DecidableEq

/-- `stewardship_gate.ExecutionResult`. -/
structure GateExecutionResult where
  proposal_id : String
  status : String
  details : String
  started_at : Rat
  ended_at : Rat
deriving Repr, DecidableEq

/-- `StewardshipGate.execute(proposal, decision, executor)` from
`stewardship_gate.py` lines 136-162.  The injected executor callable is
modelled by the details string it returns; `now_ts()` readings are the
explicit `start` / `tEnd` parameters.  The source has exactly three
branches: not approved → SKIPPED, rate-limited → SKIPPED, else SUCCESS. -/
def gateExecute (rl : RateLimiter) (p : GateProposal) (d : GateDecision)
    (executorDetails : String) (start tEnd : Rat) :
    GateExecutionResult × RateLimiter :=
  if d.approved = false then
    (⟨p.proposal_id, ("SKIPPED"), d.reason, start, tEnd⟩, rl)
  else
    let rate := rl.accept p.actor start
    if rate.1.allowed = false then
      (⟨p.proposal_id, ("SKIPPED"), rate.1.reason, start, tEnd⟩, rate.2)
    else
      (⟨p.proposal_id, ("SUCCESS"), executorDetails, start, tEnd⟩, rate.2)

/-! ## Part B: the Shammash executive service (`core/shammash/src/app.py`) -/

/-- Python scalar / JSON values as they appear in proposals, device state
dictionaries and audit payloads. -/
inductive PyVal where
  | str (s : String)
  | num (q : Rat)
  | bool (b : Bool)
  | pynone
  | dict (entries : List (String × PyVal))

/-- A JSON object / Python dict. -/
abbrev StateData := List (String × PyVal)

/-- `dict.get(key)`: first binding of the key, if any. -/
def pyGet (d : StateData) (k : String) : Option PyVal :=
  (d.find? (fun e => e.1 == k)).map (fun e => e.2)

/-- All string fragments (keys and string values) contained in a value;
used to express what a serialized audit line can contain. -/
def pyValStrings : PyVal → List String
  | .str s => [s]
  | .num _ => []
  | .bool _ => []
  | .pynone => []
  | .dict [] => []
  | .dict ((k, v) :: rest) => k :: (pyValStrings v ++ pyValStrings (.dict rest))

/-- String fragments of a dict. -/
def stateStrings (d : StateData) : List String :=
  pyValStrings (.dict d)

/-- Is `sub` a contiguous sublist of `hay`? -/
def listInfixOf (sub : List Char) : List Char → Bool
  | [] => sub.isEmpty
  | c :: cs => sub.isPrefixOf (c :: cs) || listInfixOf sub cs

/-- Python substring test `sub in hay`. -/
def strContains (hay sub : String) : Bool :=
  listInfixOf sub.data hay.data

/-- A single-quote character, kept out of string literals. -/
def squote : String :=
  String.singleton (Char.ofNat 39)

/-! ### Entity-id format and blast radius -/

/-- A character of the class `[a-z0-9_]`. -/
def isEntityChar (c : Char) : Bool :=
  (decide (97 ≤ c.toNat) && decide (c.toNat ≤ 122)) ||
  (decide (48 ≤ c.toNat) && decide (c.toNat ≤ 57)) ||
  c == Char.ofNat 95

/-- `_ENTITY_ID_RE.match`: the anchored regex
`[a-z0-9_]+\.[a-z0-9_]+` — exactly one dot with a nonempty run of
class characters on each side.  (The Python `$` anchor would also accept
one trailing newline; that quirk is not modelled.) -/
def entityIdValid (s : String) : Bool :=
  match s.splitOn (".") with
  | [a, b] => (!a.isEmpty) && (!b.isEmpty) && a.data.all isEntityChar && b.data.all isEntityChar
  | _ => false

/-- `_BLAST_RADIUS_ORDER`. -/
def blastRadiusOrder : List String :=
  [("single_device"), ("room"), ("whole_home"), ("network_wide")]

/-- `_blast_radius_level`: index in the order, with unknown values mapping
to the list length (worst case), exactly like the `ValueError` branch. -/
def blast_radius_level (radius : String) : Nat :=
  blastRadiusOrder.indexOf radius

/-! ### Configuration (module globals loaded from env + policy YAML) -/

/-- The module-level configuration of `app.py`: `HA_TOKEN`,
`SHAMMASH_INSTANCE`, `ALLOWED_ACTION_TYPES`, `SHAMMASH_ALLOWLIST`,
`POLICY_MAX_BLAST_RADIUS`, `POLICY_ENFORCE_TARGET_VERIFY`,
`POLICY_MAX_TIMEOUT`.  These are free values fixed at startup. -/
structure Config where
  haToken : String
  instanceName : String
  allowActions : List String
  allowlist : List String
  maxBlastRadius : String
  enforceTargetVerify : Bool
  maxTimeout : Int

/-! ### Secret sanitization (`_sanitize_error`) -/

/-- Python `\s` on ASCII: space, tab, newline, carriage return,
vertical tab, form feed. -/
def isPySpace (c : Char) : Bool :=
  c == ' ' || c == Char.ofNat 9 || c == Char.ofNat 10 || c == Char.ofNat 13 ||
  c == Char.ofNat 11 || c == Char.ofNat 12

/-- Single or double quote. -/
def isQuote (c : Char) : Bool :=
  c == Char.ofNat 39 || c == '"'

/-- Character admitted by the negated class of the Authorization regex:
anything but a quote, a closing brace or a closing bracket. -/
def isAuthBodyChar (c : Char) : Bool :=
  !(c == Char.ofNat 39 || c == '"' || c == Char.ofNat 125 || c == ']')

/-- Try to match `Bearer\s+\S+` at the head of the list; on success
return the remainder after the match. -/
def bearerMatchRest (l : List Char) : Option (List Char) :=
  match l with
  | 'B' :: 'e' :: 'a' :: 'r' :: 'e' :: 'r' :: rest =>
      let ws := rest.takeWhile isPySpace
      if ws.isEmpty then none
      else
        let afterWs := rest.dropWhile isPySpace
        let tok := afterWs.takeWhile (fun c => !(isPySpace c))
        if tok.isEmpty then none
        else some (afterWs.dropWhile (fun c => !(isPySpace c)))
  | _ => none

/-- Scan for non-overlapping matches of the Bearer pattern, replacing each
with `Bearer [REDACTED]` — the semantics of
`re.sub(r"Bearer\s+\S+", "Bearer [REDACTED]", msg)` (no backtracking is
needed: the quantified classes are disjoint).  Fuel is the list length; a
match consumes at least one character, so the fuel never runs out. -/
def bearerSubAux : Nat → List Char → List Char
  | 0, l => l
  | _ + 1, [] => []
  | fuel + 1, c :: cs =>
      match bearerMatchRest (c :: cs) with
      | some rest => ("Bearer [REDACTED]").data ++ bearerSubAux fuel rest
      | none => c :: bearerSubAux fuel cs

/-- `re.sub(r"Bearer\s+\S+", "Bearer [REDACTED]", msg)`. -/
def bearerSub (s : String) : String :=
  ⟨bearerSubAux s.data.length s.data⟩

/-- Strip the literal `Authorization` from the head of the list. -/
def stripAuthLiteral (l : List Char) : Option (List Char) :=
  match l with
  | 'A' :: 'u' :: 't' :: 'h' :: 'o' :: 'r' :: 'i' :: 'z' :: 'a' :: 't' :: 'i' :: 'o' :: 'n' :: rest =>
      some rest
  | _ => none

/-- Drop one leading quote if present (the optional `[quote]?` piece). -/
def dropOptQuote (l : List Char) : List Char :=
  match l with
  | c :: cs => if isQuote c then cs else l
  | [] => []

/-- Try to match the Authorization-header regex of `_sanitize_error` at the
head of the list: optional quote, `Authorization`, optional quote, `\s*`,
`:`, `\s*`, optional quote, one or more body characters, optional quote.
Greedy without backtracking — this agrees with `re.sub` except for
degenerate header values that are empty after the colon, which no theorem
depends on. -/
def authMatchRest (l : List Char) : Option (List Char) :=
  match stripAuthLiteral (dropOptQuote l) with
  | none => none
  | some r1 =>
    let r2 := (dropOptQuote r1).dropWhile isPySpace
    match r2 with
    | ':' :: r4 =>
        let r6 := dropOptQuote (r4.dropWhile isPySpace)
        let body := r6.takeWhile isAuthBodyChar
        if body.isEmpty then none
        else some (dropOptQuote (r6.dropWhile isAuthBodyChar))
    | _ => none

/-- Scan for Authorization-header fragments, replacing each with
`Authorization: [REDACTED]`. -/
def authSubAux : Nat → List Char → List Char
  | 0, l => l
  | _ + 1, [] => []
  | fuel + 1, c :: cs =>
      match authMatchRest (c :: cs) with
      | some rest => ("Authorization: [REDACTED]").data ++ authSubAux fuel rest
      | none => c :: authSubAux fuel cs

/-- The Authorization-header substitution of `_sanitize_error`. -/
def authSub (s : String) : String :=
  ⟨authSubAux s.data.length s.data⟩

/-- `_sanitize_error(exc)` from `app.py` lines 124-136, acting on the
string form of the exception: replace the configured token (when set and
present), then Bearer tokens, then Authorization header values. -/
def sanitize_error (cfg : Config) (msg : String) : String :=
  let m1 := if (cfg.haToken != "") && strContains msg cfg.haToken
            then msg.replace cfg.haToken ("[REDACTED]") else msg
  authSub (bearerSub m1)

/-! ### Pydantic models -/

/-- `ActionType` (v1 enum). -/
inductive ActionType where
  | toggle_entity
  | turn_on
  | turn_off
deriving Repr, DecidableEq

/-- `ActionType.value`. -/
def ActionType.value : ActionType → String
  | .toggle_entity => ("toggle_entity")
  | .turn_on => ("turn_on")
  | .turn_off => ("turn_off")

/-- `ActionTarget`. -/
structure ActionTarget where
  entity_id : String

/-- `ActionParameters`. -/
structure ActionParameters where
  value : Option PyVal
  min : Option Rat
  max : Option Rat

/-- `ActionMetadata`. -/
structure ActionMetadata where
  reversibility : String
  blast_radius : String
  safety_tags : List String

/-- `VerifySpec`; the Python field `attribute` is spelled `attribute_`
because `attribute` is reserved in Lean. -/
structure VerifySpec where
  entity_id : String
  attribute_ : String
  equals : Option PyVal

/-- `ExpectedOutcome`; `timeout_seconds` is validated to `[1, 120]` by
Pydantic, but the model keeps it unconstrained like the Python int. -/
structure ExpectedOutcome where
  verify : VerifySpec
  timeout_seconds : Int

/-- `HAAction`; the `domain` field is the fixed literal `home_assistant`. -/
structure HAAction where
  type : ActionType
  target : ActionTarget
  parameters : ActionParameters
  metadata : ActionMetadata
  expected_outcome : ExpectedOutcome

/-- `Source`. -/
structure Source where
  service : String
  instance_ : String

/-- `ExecutionProposal`; `schema_version` is the fixed literal `v1`. -/
structure ExecutionProposal where
  proposal_id : String
  request_id : String
  timestamp : String
  source : Source
  action : HAAction
  justification : String
  confirmation_token : Option String
  steward_key_token : Option String
  expected_outcome : Option StateData

/-- `Verification` (`pass` / `evidence`). -/
structure Verification where
  pass : Bool
  evidence : String

/-- `ActionTaken`: the `action_taken` dict of a receipt (improvement #7). -/
structure ActionTaken where
  type : String
  entity_id : String
  endpoint : String
  domain_service : String
  payload : StateData
  status_code : Int

/-- `ExecutionReceipt`; `schema_version` is the fixed literal `v1` and
`source` is the two-field dict built by `execute_proposal`. -/
structure ExecutionReceipt where
  proposal_id : String
  timestamp : String
  source_service : String
  source_instance : String
  decision : String
  policy_basis : List String
  action_taken : Option ActionTaken
  verification : Verification
  before_state : Option StateData
  after_state : Option StateData
  audit_ref : String
  failure_language_hint : Option String

/-! ### Law engine -/

/-- `LawDecision`. -/
structure LawDecision where
  allowed : Bool
  policy_basis : List String
  reason : String

/-- Python repr of a sorted list of strings, used in the
`action_not_allowed` reason. -/
def pySortedListRepr (l : List String) : String :=
  ("[") ++ String.intercalate (", ") ((l.mergeSort (fun a b => a ≤ b)).map
    (fun s => squote ++ s ++ squote)) ++ ("]")

/-- `evaluate_law(proposal)` from `app.py` lines 331-411: default deny,
five checks in source order, allow only when all pass. -/
def evaluate_law (cfg : Config) (proposal : ExecutionProposal) : LawDecision :=
  let action := proposal.action
  let entity_id := action.target.entity_id
  let verify_entity_id := action.expected_outcome.verify.entity_id
  let action_type := action.type.value
  if !(entityIdValid entity_id) then
    ⟨false, [("law.v1.default_deny"), ("law.v1.invalid_entity_format")],
     ("Entity ID ") ++ squote ++ entity_id ++ squote ++ (" does not match required format")⟩
  else if !(entityIdValid verify_entity_id) then
    ⟨false, [("law.v1.default_deny"), ("law.v1.invalid_entity_format")],
     ("Verify entity ID ") ++ squote ++ verify_entity_id ++ squote ++ (" does not match required format")⟩
  else if cfg.enforceTargetVerify && (entity_id != verify_entity_id) then
    ⟨false, [("law.v1.default_deny"), ("law.v1.target_verify_mismatch")],
     ("target.entity_id (") ++ entity_id ++ (") != verify.entity_id (") ++ verify_entity_id ++
       ("). In v1 they must match.")⟩
  else if !(cfg.allowActions.contains action_type) then
    ⟨false, [("law.v1.default_deny"), ("law.v1.action_not_allowed")],
     ("Action type ") ++ squote ++ action_type ++ squote ++ (" is not in allowed set: ") ++
       pySortedListRepr cfg.allowActions⟩
  else if !(cfg.allowlist.contains entity_id) then
    ⟨false, [("law.v1.default_deny"), ("law.v1.entity_not_allowlisted")],
     ("Entity ") ++ squote ++ entity_id ++ squote ++ (" is not in SHAMMASH_ALLOWLIST")⟩
  else if blast_radius_level action.metadata.blast_radius > blast_radius_level cfg.maxBlastRadius then
    ⟨false, [("law.v1.default_deny"), ("law.v1.blast_radius_exceeded")],
     ("Blast radius ") ++ squote ++ action.metadata.blast_radius ++ squote ++
       (" exceeds policy max ") ++ squote ++ cfg.maxBlastRadius ++ squote⟩
  else
    ⟨true, [("law.v1.allowlist_match"), ("entity=") ++ entity_id, ("type=") ++ action_type], ("")⟩

/-- Specification-side Law table, following the wording of spec 4.4 /
claim C3: the ordered deny rules, the first failing rule deciding.
Returns the id of the first failing rule, if any. -/
def lawSpecFirstDeny (cfg : Config) (p : ExecutionProposal) : Option String :=
  if entityIdValid p.action.target.entity_id = false ∨
     entityIdValid p.action.expected_outcome.verify.entity_id = false then
    some ("law.v1.invalid_entity_format")
  else if cfg.enforceTargetVerify = true ∧
          p.action.target.entity_id ≠ p.action.expected_outcome.verify.entity_id then
    some ("law.v1.target_verify_mismatch")
  else if p.action.type.value ∉ cfg.allowActions then
    some ("law.v1.action_not_allowed")
  else if p.action.target.entity_id ∉ cfg.allowlist then
    some ("law.v1.entity_not_allowlisted")
  else if blast_radius_level p.action.metadata.blast_radius >
          blast_radius_level cfg.maxBlastRadius then
    some ("law.v1.blast_radius_exceeded")
  else
    none

/-- Specification-side policy basis, following the wording of spec 4.4 /
claim C3: on deny `[law.v1.default_deny, rule]`, on allow
`[law.v1.allowlist_match, entity=<id>, type=<action>]`. -/
def lawSpecBasis (cfg : Config) (p : ExecutionProposal) : List String :=
  match lawSpecFirstDeny cfg p with
  | some rule => [("law.v1.default_deny"), rule]
  | none => [("law.v1.allowlist_match"), ("entity=") ++ p.action.target.entity_id,
             ("type=") ++ p.action.type.value]

/-! ### Device + runtime environment -/

/-- Outcomes supplied by the world outside the service: Home Assistant
responses, exception messages, clock readings, uuid draws, and the two
Python float primitives (`str(float)` formatting and `float(str)`
parsing) used by the comparison rules.  `pollDur` is the nonnegative
time consumed by the k-th verification poll. -/
structure DeviceEnv where
  readBefore : Except String StateData
  invoke : Except String Int
  poll : Nat → Except String StateData
  pollDur : Nat → NNRat
  startTime : Rat
  isoNow : Nat → String
  uuid : Nat → String
  numStr : Rat → String
  floatParse : String → Option Rat

/-! ### Outcome verification (`verify_outcome`, lines 485-559) -/

/-- `effective_timeout = min(expected.timeout_seconds, POLICY_MAX_TIMEOUT)`
(line 501): the proposal timeout clamped to the policy ceiling. -/
def effective_timeout (expected : ExpectedOutcome) (cfg : Config) : Int :=
  min expected.timeout_seconds cfg.maxTimeout

/-- Python `str()` of a scalar value (float formatting delegated to the
runtime primitive). -/
def pyStrOf (numStr : Rat → String) : PyVal → String
  | .str s => s
  | .bool true => ("True")
  | .bool false => ("False")
  | .pynone => ("None")
  | .num q => numStr q
  | .dict _ => ("\x7b...\x7d")

/-- Python `repr()` of a scalar value (strings quoted; floats delegated). -/
def pyReprOf (numStr : Rat → String) : PyVal → String
  | .str s => squote ++ s ++ squote
  | v => pyStrOf numStr v

/-- Python `float()` coercion: numbers and bools convert, strings go
through the runtime parser, `None` and dicts raise (modelled as `none`). -/
def pyFloatOf (floatParse : String → Option Rat) : PyVal → Option Rat
  | .num q => some q
  | .bool b => some (if b then 1 else 0)
  | .str s => floatParse s
  | .pynone => none
  | .dict _ => none

/-- Python `==` on scalars (bools compare with numbers numerically). -/
def pyEqVal : PyVal → PyVal → Bool
  | .str a, .str b => a == b
  | .num a, .num b => a == b
  | .bool a, .bool b => a == b
  | .num a, .bool b => a == (if b then (1 : Rat) else 0)
  | .bool a, .num b => (if a then (1 : Rat) else 0) == b
  | .pynone, .pynone => true
  | _, _ => false

/-- Value extraction (user feedback #3): `attribute == "state"` reads the
top-level `state` key, anything else reads `attributes[attribute]`.
Missing keys give `None`; a non-dict `attributes` value is treated as the
empty dict default of `.get("attributes", \x7b\x7d)`. -/
def extractActual (v : VerifySpec) (st : StateData) : PyVal :=
  if v.attribute_ == ("state") then (pyGet st ("state")).getD .pynone
  else
    match pyGet st ("attributes") with
    | some (.dict attrs) => (pyGet attrs v.attribute_).getD .pynone
    | _ => .pynone

/-- Same extraction, but with the `"<unknown>"` default used when building
the timeout evidence (lines 548-551). -/
def extractFinal (v : VerifySpec) (st : StateData) : PyVal :=
  if v.attribute_ == ("state") then (pyGet st ("state")).getD (.str ("<unknown>"))
  else
    match pyGet st ("attributes") with
    | some (.dict attrs) => (pyGet attrs v.attribute_).getD (.str ("<unknown>"))
    | _ => .str ("<unknown>")

/-- The comparison rules of lines 519-529: a bool expectation compares by
`==` or case-insensitive string form; a numeric expectation compares as
floats (unparsable actual → not equal); anything else compares string
forms. -/
def comparePassed (numStr : Rat → String) (floatParse : String → Option Rat)
    (expectedVal : Option PyVal) (actual : PyVal) : Bool :=
  match expectedVal with
  | some (.bool b) =>
      pyEqVal actual (.bool b) ||
      ((pyStrOf numStr actual).toLower == (pyStrOf numStr (.bool b)).toLower)
  | some (.num q) =>
      match pyFloatOf floatParse actual with
      | some x => x == q
      | none => false
  | other =>
      pyStrOf numStr actual == pyStrOf numStr (other.getD .pynone)

/-- The evidence data interpolated into the verification evidence string:
`<kind>: <entity>.<attr> expected <e>; observed <a> after <elapsed>s
(<pollCount> poll(s))`. -/
structure Evidence where
  kind : String
  entity : String
  attr : String
  expectedVal : Option PyVal
  observed : String
  elapsed : Rat
  pollCount : Nat

/-- Result triple of `verify_outcome`: `(passed, evidence, last_state)`. -/
structure VerifyResult where
  passed : Bool
  evidence : Evidence
  lastState : StateData

/-- Render the evidence string (float rounding of the elapsed time is
delegated to the runtime formatter). -/
def renderEvidence (numStr : Rat → String) (e : Evidence) : String :=
  e.kind ++ (": ") ++ e.entity ++ (".") ++ e.attr ++ (" expected ") ++
  pyReprOf numStr (e.expectedVal.getD .pynone) ++ ("; observed ") ++ e.observed ++
  (" after ") ++ numStr e.elapsed ++ ("s (") ++ toString e.pollCount ++ (" poll") ++
  (if e.pollCount != 1 then ("s") else ("")) ++ (")")

/-- The polling loop of `verify_outcome` (lines 507-559).  `t` is the
current `loop.time()` reading, `k` the number of polls already done.
The loop condition `loop.time() < deadline` is checked BEFORE each poll;
each iteration runs one poll (consuming `pollDur k`), then sleeps
`POLL_INTERVAL_SECONDS = 1`.  A poll error is captured into
`last_state = (error, sanitized)` and the loop continues. -/
def verifyLoop (cfg : Config) (env : DeviceEnv) (v : VerifySpec)
    (deadline start : Rat) (t : Rat) (lastState : StateData) (k : Nat) : VerifyResult :=
  if h : t < deadline then
    match env.poll k with
    | .ok st =>
        if comparePassed env.numStr env.floatParse v.equals (extractActual v st) then
          ⟨true, ⟨("Verified"), v.entity_id, v.attribute_, v.equals,
            pyReprOf env.numStr (extractActual v st),
            (t + (env.pollDur k : Rat)) - start, k + 1⟩, st⟩
        else
          verifyLoop cfg env v deadline start (t + (env.pollDur k : Rat) + 1) st (k + 1)
    | .error e =>
        verifyLoop cfg env v deadline start (t + (env.pollDur k : Rat) + 1)
          [(("error"), .str (sanitize_error cfg e))] (k + 1)
  else
    ⟨false, ⟨("Timeout"), v.entity_id, v.attribute_, v.equals,
      pyReprOf env.numStr (extractFinal v lastState), t - start, k⟩, lastState⟩
termination_by (⌈deadline - t⌉).toNat
decreasing_by
  all_goals
    have hd : (0 : Rat) ≤ (env.pollDur k : Rat) := (env.pollDur k).coe_nonneg
    have h1 : deadline - (t + (env.pollDur k : Rat) + 1) ≤ (deadline - t) - 1 := by linarith
    have h2 : ⌈deadline - (t + (env.pollDur k : Rat) + 1)⌉ ≤ ⌈deadline - t⌉ - 1 := by
      calc ⌈deadline - (t + (env.pollDur k : Rat) + 1)⌉ ≤ ⌈(deadline - t) - 1⌉ :=
            Int.ceil_le_ceil h1
        _ = ⌈deadline - t⌉ - 1 := by
            rw [Int.ceil_sub_one]
    have h3 : 0 < ⌈deadline - t⌉ := Int.ceil_pos.mpr (by linarith)
    omega

/-- `verify_outcome(expected)`: clamp the timeout, set the deadline, run
the polling loop from the current clock reading. -/
def verify_outcome (cfg : Config) (env : DeviceEnv) (expected : ExpectedOutcome) : VerifyResult :=
  verifyLoop cfg env expected.verify
    (env.startTime + ((effective_timeout expected cfg : Int) : Rat))
    env.startTime env.startTime [] 0

/-! ### Audit events and the execution pipeline (`execute_proposal`) -/

/-- `_sanitize_proposal_for_audit`: `model_dump()` with the
`confirmation_token` and `steward_key_token` keys popped (improvement #2).
The result type has no token fields at all, mirroring the popped dict. -/
structure SanitizedProposal where
  proposal_id : String
  request_id : String
  timestamp : String
  source : Source
  action : HAAction
  justification : String
  expected_outcome : Option StateData

/-- `_sanitize_proposal_for_audit(proposal)` from lines 298-307. -/
def sanitize_proposal_for_audit (p : ExecutionProposal) : SanitizedProposal :=
  ⟨p.proposal_id, p.request_id, p.timestamp, p.source, p.action, p.justification,
   p.expected_outcome⟩

/-- The payload of an audit event — `append_audit_event` is called with
exactly these four shapes in `app.py`. -/
inductive AuditPayload where
  | proposal (p : SanitizedProposal)
  | law (allowed : Bool) (policy_basis : List String) (reason : String)
  | attempt (action_type : String) (entity_id : String)
  | receipt (r : ExecutionReceipt)

/-- `AuditEvent` (`schema_version` is the fixed literal `v1`). -/
structure AuditEvent where
  event_id : String
  timestamp : String
  service : String
  event_type : String
  corr_request_id : String
  corr_proposal_id : String
  payload : AuditPayload

/-- `_make_audit_event` from lines 275-295: fresh event id and timestamp,
service `shammash`, correlation with both ids. -/
def mkAuditEvent (env : DeviceEnv) (k : Nat) (event_type : String)
    (request_id proposal_id : String) (payload : AuditPayload) : AuditEvent :=
  ⟨env.uuid k, env.isoNow k, ("shammash"), event_type, request_id, proposal_id, payload⟩

/-- One outbound call to the Home Assistant REST API. -/
inductive DeviceCall where
  | read (entity_id : String)
  | invoke (action_type : String) (entity_id : String)
deriving Repr, DecidableEq

/-- `_HA_SERVICE_MAP`: fixed routing table from action type to service
path.  Total on the v1 enum, so the `ValueError` branch of
`ha_call_service` is unreachable. -/
def haServicePath : ActionType → String
  | .toggle_entity => ("homeassistant/toggle")
  | .turn_on => ("homeassistant/turn_on")
  | .turn_off => ("homeassistant/turn_off")

/-- What one run of `POST /execute/proposal` produces: the returned
receipt, the audit events appended (in order), and the device calls
attempted (in order). -/
structure PipelineResult where
  receipt : ExecutionReceipt
  trail : List AuditEvent
  calls : List DeviceCall

/-- `execute_proposal(proposal)` from `app.py` lines 650-824.

Steps, as in the source: fail fast on an empty `HA_TOKEN` (receipt event
only); audit the sanitized proposal; run Law and audit the decision;
denied → `denied` receipt; read the before-state (failure → `failed`
receipt, nothing invoked); audit the attempt and invoke the service
(failure → `failed` receipt with `before_state`); verify the outcome and
return `allowed`/`failed` with the full action record. -/
def execute_proposal (cfg : Config) (env : DeviceEnv) (proposal : ExecutionProposal) :
    PipelineResult :=
  let now_iso := env.isoNow 0
  let request_id := proposal.request_id
  let proposal_id := proposal.proposal_id
  if cfg.haToken = "" then
    let receipt : ExecutionReceipt :=
      { proposal_id := proposal_id, timestamp := now_iso,
        source_service := ("shammash"), source_instance := cfg.instanceName,
        decision := ("failed"), policy_basis := [("law.v1.misconfigured.no_token")],
        action_taken := none,
        verification := ⟨false, ("HA_TOKEN is not configured. Cannot reach Home Assistant.")⟩,
        before_state := none, after_state := none,
        audit_ref := ("audit:") ++ proposal_id,
        failure_language_hint := some ("Shammash is misconfigured: HA_TOKEN is empty.") }
    ⟨receipt,
     [mkAuditEvent env 1 ("execution_receipt.out") request_id proposal_id (.receipt receipt)],
     []⟩
  else
    let ev1 := mkAuditEvent env 1 ("execution_proposal.in") request_id proposal_id
      (.proposal (sanitize_proposal_for_audit proposal))
    let law := evaluate_law cfg proposal
    let ev2 := mkAuditEvent env 2 ("law_decision") request_id proposal_id
      (.law law.allowed law.policy_basis law.reason)
    if law.allowed = false then
      let receipt : ExecutionReceipt :=
        { proposal_id := proposal_id, timestamp := now_iso,
          source_service := ("shammash"), source_instance := cfg.instanceName,
          decision := ("denied"), policy_basis := law.policy_basis,
          action_taken := none,
          verification := ⟨false, law.reason⟩,
          before_state := none, after_state := none,
          audit_ref := ("audit:") ++ proposal_id,
          failure_language_hint := some law.reason }
      ⟨receipt,
       [ev1, ev2,
        mkAuditEvent env 3 ("execution_receipt.out") request_id proposal_id (.receipt receipt)],
       []⟩
    else
      let entity_id := proposal.action.target.entity_id
      match env.readBefore with
      | .error exc =>
          let safe := sanitize_error cfg exc
          let receipt : ExecutionReceipt :=
            { proposal_id := proposal_id, timestamp := now_iso,
              source_service := ("shammash"), source_instance := cfg.instanceName,
              decision := ("failed"), policy_basis := law.policy_basis,
              action_taken := none,
              verification := ⟨false, ("Failed to read before-state: ") ++ safe⟩,
              before_state := none, after_state := none,
              audit_ref := ("audit:") ++ proposal_id,
              failure_language_hint :=
                some (("Could not reach HA to read state for ") ++ entity_id) }
          ⟨receipt,
           [ev1, ev2,
            mkAuditEvent env 3 ("execution_receipt.out") request_id proposal_id (.receipt receipt)],
           [.read entity_id]⟩
      | .ok before_state =>
          let ev3 := mkAuditEvent env 3 ("execution_attempt") request_id proposal_id
            (.attempt proposal.action.type.value entity_id)
          match env.invoke with
          | .error exc =>
              let safe := sanitize_error cfg exc
              let receipt : ExecutionReceipt :=
                { proposal_id := proposal_id, timestamp := now_iso,
                  source_service := ("shammash"), source_instance := cfg.instanceName,
                  decision := ("failed"), policy_basis := law.policy_basis,
                  action_taken := none,
                  verification := ⟨false, ("Service call failed: ") ++ safe⟩,
                  before_state := some before_state, after_state := none,
                  audit_ref := ("audit:") ++ proposal_id,
                  failure_language_hint := some (("HA service call failed for ") ++ entity_id) }
              ⟨receipt,
               [ev1, ev2, ev3,
                mkAuditEvent env 4 ("execution_receipt.out") request_id proposal_id
                  (.receipt receipt)],
               [.read entity_id, .invoke proposal.action.type.value entity_id]⟩
          | .ok status_code =>
              let service_path := haServicePath proposal.action.type
              let vr := verify_outcome cfg env proposal.action.expected_outcome
              let decision := if vr.passed then ("allowed") else ("failed")
              let evidence := renderEvidence env.numStr vr.evidence
              let receipt : ExecutionReceipt :=
                { proposal_id := proposal_id, timestamp := env.isoNow 4,
                  source_service := ("shammash"), source_instance := cfg.instanceName,
                  decision := decision, policy_basis := law.policy_basis,
                  action_taken := some
                    ⟨proposal.action.type.value, entity_id,
                     ("/api/services/") ++ service_path, service_path,
                     [(("entity_id"), .str entity_id)], status_code⟩,
                  verification := ⟨vr.passed, evidence⟩,
                  before_state := some before_state, after_state := some vr.lastState,
                  audit_ref := ("audit:") ++ proposal_id,
                  failure_language_hint := if vr.passed then none else some evidence }
              ⟨receipt,
               [ev1, ev2, ev3,
                mkAuditEvent env 5 ("execution_receipt.out") request_id proposal_id
                  (.receipt receipt)],
               [.read entity_id, .invoke proposal.action.type.value entity_id] ++
                 List.replicate vr.evidence.pollCount
                   (.read proposal.action.expected_outcome.verify.entity_id)⟩

/-! ### String fragments of audit lines and receipts -/

/-- String fragments of a `Source`. -/
def sourceStrings (s : Source) : List String :=
  [s.service, s.instance_]

/-- String fragments of an `HAAction` as serialized in audit payloads. -/
def actionStrings (a : HAAction) : List String :=
  [("home_assistant"), a.type.value, a.target.entity_id, a.metadata.reversibility,
   a.metadata.blast_radius] ++ a.metadata.safety_tags ++
  (match a.parameters.value with | some v => pyValStrings v | none => []) ++
  [a.expected_outcome.verify.entity_id, a.expected_outcome.verify.attribute_] ++
  (match a.expected_outcome.verify.equals with | some v => pyValStrings v | none => [])

/-- String fragments of a sanitized proposal dump. -/
def sanitizedProposalStrings (p : SanitizedProposal) : List String :=
  [p.proposal_id, p.request_id, p.timestamp] ++ sourceStrings p.source ++
  actionStrings p.action ++ [p.justification] ++
  (match p.expected_outcome with | some d => stateStrings d | none => [])

/-- String fragments of an `action_taken` record. -/
def actionTakenStrings (a : ActionTaken) : List String :=
  [a.type, a.entity_id, a.endpoint, a.domain_service] ++ stateStrings a.payload

/-- String fragments of a serialized receipt. -/
def receiptStrings (r : ExecutionReceipt) : List String :=
  [r.proposal_id, r.timestamp, r.source_service, r.source_instance, r.decision] ++
  r.policy_basis ++
  (match r.action_taken with | some a => actionTakenStrings a | none => []) ++
  [r.verification.evidence] ++
  (match r.before_state with | some d => stateStrings d | none => []) ++
  (match r.after_state with | some d => stateStrings d | none => []) ++
  [r.audit_ref] ++
  (match r.failure_language_hint with | some h => [h] | none => [])

/-- String fragments of an audit payload. -/
def payloadStrings : AuditPayload → List String
  | .proposal p => sanitizedProposalStrings p
  | .law _ basis reason => basis ++ [reason]
  | .attempt ty ent => [ty, ent]
  | .receipt r => receiptStrings r

/-- Every string fragment serialized into one audit JSONL line. -/
def auditEventStrings (e : AuditEvent) : List String :=
  [e.event_id, e.timestamp, e.service, e.event_type, e.corr_request_id,
   e.corr_proposal_id] ++ payloadStrings e.payload

/-! ### Concrete fixtures (mirroring the repository test helpers) -/

/-- The configuration of `tests/test_app.py`: token `test-token-abc`,
allowlist `light.test_lamp, switch.test_switch`, default policy. -/
def cfgStd : Config :=
  ⟨("test-token-abc"), ("test-shammash"),
   [("toggle_entity"), ("turn_on"), ("turn_off")],
   [("light.test_lamp"), ("switch.test_switch")],
   ("room"), true, 60⟩

/-- `cfgStd` with an empty `HA_TOKEN`. -/
def cfgNoToken : Config :=
  { cfgStd with haToken := ("") }

/-- `cfgStd` with `verification.max_timeout_seconds = 0` in the policy. -/
def cfgZeroTimeout : Config :=
  { cfgStd with maxTimeout := 0 }

/-- Verify spec of the test helper: `light.test_lamp.state == "on"`. -/
def vsStd : VerifySpec :=
  ⟨("light.test_lamp"), ("state"), some (.str ("on"))⟩

/-- Expected outcome of the test helper (`timeout_seconds=5`). -/
def expectedStd : ExpectedOutcome :=
  ⟨vsStd, 5⟩

/-- Action of the test helper: toggle `light.test_lamp`, single device,
reversible. -/
def actionStd : HAAction :=
  ⟨.toggle_entity, ⟨("light.test_lamp")⟩, ⟨none, none, none⟩,
   ⟨("reversible"), ("single_device"), []⟩, expectedStd⟩

/-- Proposal of the test helper. -/
def proposalStd : ExecutionProposal :=
  ⟨("p-1"), ("r-1"), ("2026-01-01T00:00:00+00:00"), ⟨("samuel"), ("samuel-1")⟩,
   actionStd, ("Test justification for automated test."), none, none, none⟩

/-- `proposalStd` with a target outside the allowlist (Law denies it with
`entity_not_allowlisted`); the verify entity matches the target. -/
def proposalForbidden : ExecutionProposal :=
  { proposalStd with action :=
    { actionStd with
        target := ⟨("light.forbidden_lamp")⟩,
        expected_outcome := ⟨⟨("light.forbidden_lamp"), ("state"), some (.str ("on"))⟩, 5⟩ } }

/-- `proposalStd` whose free-text justification happens to contain the
configured device token. -/
def proposalLeak : ExecutionProposal :=
  { proposalStd with justification := ("see test-token-abc for access") }

/-- Environment in which every device interaction fails: the before-state
read raises `boom`, the service call raises `bam`, polls raise `poll`. -/
def envErr : DeviceEnv :=
  ⟨.error ("boom"), .error ("bam"), fun _ => .error ("poll"), fun _ => 0, 0,
   fun _ => ("2026-01-01T00:00:01+00:00"), fun k => ("uuid-") ++ toString k,
   fun _ => ("0.0"), fun _ => none⟩

/-- Environment where the read succeeds with `state=off` and the invoke
fails with `bam`. -/
def envInvokeErr : DeviceEnv :=
  { envErr with readBefore := .ok [(("state"), .str ("off"))] }

/-- A fresh `RateLimiter(10, 60)` as in `test_decision_ttl_expiry`. -/
def gateRL : RateLimiter :=
  mkRateLimiter 10 60

/-- The `turn_on safe_light` proposal of the gate tests. -/
def gatePropTTL : GateProposal :=
  ⟨("pl-1"), ("agent"), ("turn_on"), ("safe_light"), ("lighting"), ("r"),
   some ("turn_off"), ("tr-1")⟩

/-- An approved decision made at time 1 (with `decision_ttl_seconds=0` in
the test, it is already expired at any later time). -/
def gateDecApproved : GateDecision :=
  ⟨("pl-1"), true, ("auto-approved"), ("tester"), 1⟩

/-- The `toggle_entity` proposal of `test_toggle_entity_requires_expected_outcome`
— the source `Proposal` dataclass cannot even carry an expected outcome. -/
def gatePropToggle : GateProposal :=
  ⟨("pl-2"), ("agent"), ("toggle_entity"), ("safe_light"), ("lighting"), ("r"),
   some ("turn_off"), ("tr-2")⟩

/-- An approved (human) decision for the toggle proposal. -/
def gateDecToggle : GateDecision :=
  ⟨("pl-2"), true, ("human approved"), ("tester"), 1⟩

/-- The purged per-actor history computed at the top of `accept`:
hits at least `now - window_seconds` old are kept. -/
def purgedHits (rl : RateLimiter) (a0 : String) (t : Rat) : List Rat :=
  (rl.hits a0).filter (fun s => decide (t - rl.window_seconds ≤ s))

/-! ## Theorems -/

/-- Helper: every deny branch of `evaluate_law` puts `law.v1.default_deny`
first in the policy basis. -/
theorem evaluate_law_deny_head (cfg : Config) (p : ExecutionProposal)
    (h : (evaluate_law cfg p).allowed = false) :
    (evaluate_law cfg p).policy_basis.head? = some ("law.v1.default_deny") := by
  simp only [evaluate_law] at h ⊢
  split_ifs at * <;> simp_all

/-- C6: the effective verification timeout equals
`min(expected.timeout_seconds, policy.max_timeout_seconds)` and hence never
exceeds the policy ceiling, whatever timeout the proposal requested. -/
theorem effective_timeout_clamped (expected : ExpectedOutcome) (cfg : Config) :
    effective_timeout expected cfg = min expected.timeout_seconds cfg.maxTimeout ∧
    effective_timeout expected cfg ≤ cfg.maxTimeout :=
  ⟨rfl, min_le_right _ _⟩

/-- C4: the gate executes an approved decision long after its timestamp
(here 99999 seconds later, with the test fixture whose
`decision_ttl_seconds` would be 0) and still returns `SUCCESS`; moreover
`execute` can only ever return `SKIPPED` or `SUCCESS`, never `EXPIRED` —
the source has no TTL check and `Decision` has no TTL field. -/
theorem gate_execute_ignores_ttl :
    (gateExecute gateRL gatePropTTL gateDecApproved ("ok") 100000 100000).1.status =
      ("SUCCESS") ∧
    ∀ (rl : RateLimiter) (p : GateProposal) (d : GateDecision) (det : String) (s e : Rat),
      (gateExecute rl p d det s e).1.status = ("SKIPPED") ∨
      (gateExecute rl p d det s e).1.status = ("SUCCESS") := by
  constructor
  · with_unfolding_all decide
  · intro rl p d det s e
    unfold gateExecute
    by_cases h1 : d.approved = false
    · simp [h1]
    · by_cases h2 : ((rl.accept p.actor s).1.allowed = false) <;> simp [h1, h2]

/-- C8: executing an approved `toggle_entity` proposal that carries no
expected outcome (the source `Proposal` dataclass has no such field)
returns `SUCCESS`, not `REJECTED`, and its details never cite
`expected_outcome`. -/
theorem gate_execute_toggle_without_outcome :
    (gateExecute gateRL gatePropToggle gateDecToggle ("ok") 5 5).1.status = ("SUCCESS") ∧
    strContains (gateExecute gateRL gatePropToggle gateDecToggle ("ok") 5 5).1.details
      ("expected_outcome") = false := by
  with_unfolding_all decide

/-- C10: with an empty device token the pipeline returns a `failed`
receipt whose policy basis is exactly `law.v1.misconfigured.no_token`,
makes no device call, and writes only the receipt audit event. -/
theorem no_token_fail_fast (cfg : Config) (env : DeviceEnv) (p : ExecutionProposal)
    (htok : cfg.haToken = ("")) :
    (execute_proposal cfg env p).receipt.decision = ("failed") ∧
    (execute_proposal cfg env p).receipt.policy_basis =
      [("law.v1.misconfigured.no_token")] ∧
    (execute_proposal cfg env p).calls = [] ∧
    (execute_proposal cfg env p).trail.map (fun e => e.event_type) =
      [("execution_receipt.out")] := by
  simp [execute_proposal, htok, mkAuditEvent]

/-- C10 witness: the concrete no-token run. -/
theorem no_token_fail_fast_witness :
    cfgNoToken.haToken = ("") ∧
    (execute_proposal cfgNoToken envErr proposalStd).receipt.decision = ("failed") :=
  ⟨rfl, (no_token_fail_fast cfgNoToken envErr proposalStd rfl).1⟩

/-- C1: whenever the token is configured and Law denies a proposal, the
pipeline returns a `denied` receipt whose policy basis starts with
`law.v1.default_deny`, and performs no device call at all. -/
theorem law_denied_pipeline (cfg : Config) (env : DeviceEnv) (p : ExecutionProposal)
    (htok : cfg.haToken ≠ ("")) (hden : (evaluate_law cfg p).allowed = false) :
    (execute_proposal cfg env p).receipt.decision = ("denied") ∧
    (execute_proposal cfg env p).receipt.policy_basis.head? =
      some ("law.v1.default_deny") ∧
    (execute_proposal cfg env p).calls = [] := by
  have hh := evaluate_law_deny_head cfg p hden
  simp [execute_proposal, htok, hden, hh]

/-- C1 witness: the not-allowlisted proposal of the tests is denied with
`law.v1.default_deny` first and no device traffic. -/
theorem law_denied_pipeline_witness :
    cfgStd.haToken ≠ ("") ∧
    (evaluate_law cfgStd proposalForbidden).allowed = false ∧
    (execute_proposal cfgStd envErr proposalForbidden).receipt.decision = ("denied") := by
  refine ⟨by decide, by with_unfolding_all decide, ?_⟩
  exact (law_denied_pipeline cfgStd envErr proposalForbidden (by decide)
    (by with_unfolding_all decide)).1

/-- C3: `evaluate_law` implements exactly the ordered five-rule deny table
of the spec — the first failing rule decides, deny basis is
`[law.v1.default_deny, <rule>]`, allow basis is
`[law.v1.allowlist_match, entity=<id>, type=<action>]`. -/
theorem evaluate_law_first_failing_rule (cfg : Config) (p : ExecutionProposal) :
    (evaluate_law cfg p).allowed = (lawSpecFirstDeny cfg p).isNone ∧
    (evaluate_law cfg p).policy_basis = lawSpecBasis cfg p := by
  simp only [evaluate_law, lawSpecBasis, lawSpecFirstDeny]
  by_cases h1 : entityIdValid p.action.target.entity_id <;>
  by_cases h2 : entityIdValid p.action.expected_outcome.verify.entity_id <;>
  by_cases h3 : cfg.enforceTargetVerify = true <;>
  by_cases h4 : p.action.target.entity_id = p.action.expected_outcome.verify.entity_id <;>
  by_cases h5 : p.action.type.value ∈ cfg.allowActions <;>
  by_cases h6 : p.action.target.entity_id ∈ cfg.allowlist <;>
  by_cases h7 : blast_radius_level cfg.maxBlastRadius <
      blast_radius_level p.action.metadata.blast_radius <;>
  simp_all [List.contains, List.elem_iff, bne_iff_ne] <;>
    (try (split_ifs <;> simp_all)) <;> omega

/-- C2 counterexample: a pipeline run in which a device error is surfaced
(the before-state read fails) writes an audit line containing the
configured device token verbatim — the proposal justification is audited
unsanitized. -/
theorem audit_line_contains_device_token :
    (execute_proposal cfgStd envErr proposalLeak).receipt.decision = ("failed") ∧
    ((execute_proposal cfgStd envErr proposalLeak).trail.flatMap auditEventStrings).any
      (fun s => strContains s cfgStd.haToken) = true := by
  with_unfolding_all decide

/-- C2 (amended): the proposal audit payload is the token-stripped dump,
and every device-error message reaching a receipt evidence goes through
`sanitize_error` first. -/
theorem sanitizer_applied_to_device_errors (cfg : Config) (env : DeviceEnv)
    (p : ExecutionProposal) (htok : cfg.haToken ≠ ("")) :
    (∀ ev ∈ (execute_proposal cfg env p).trail,
        ev.event_type = ("execution_proposal.in") →
        ev.payload = .proposal (sanitize_proposal_for_audit p)) ∧
    (∀ e, (evaluate_law cfg p).allowed = true → env.readBefore = .error e →
        (execute_proposal cfg env p).receipt.verification.evidence =
          ("Failed to read before-state: ") ++ sanitize_error cfg e) ∧
    (∀ st e, (evaluate_law cfg p).allowed = true → env.readBefore = .ok st →
        env.invoke = .error e →
        (execute_proposal cfg env p).receipt.verification.evidence =
          ("Service call failed: ") ++ sanitize_error cfg e) := by
  refine ⟨?_, ?_, ?_⟩
  · intro ev hev hty
    by_cases hlaw : (evaluate_law cfg p).allowed = false
    all_goals cases hr : env.readBefore with
      | error e =>
          simp [execute_proposal, htok, hlaw, hr, mkAuditEvent] at hev <;>
          rcases hev with h | h | h <;> simp_all [mkAuditEvent]
      | ok st =>
          cases hi : env.invoke with
          | error e2 =>
              simp [execute_proposal, htok, hlaw, hr, hi, mkAuditEvent] at hev <;>
              rcases hev with h | h | h | h <;> simp_all [mkAuditEvent]
          | ok sc =>
              simp [execute_proposal, htok, hlaw, hr, hi, mkAuditEvent] at hev <;>
              rcases hev with h | h | h | h <;> simp_all [mkAuditEvent]
  · intro e hallow hr
    simp [execute_proposal, htok, hallow, hr]
  · intro st e hallow hr hi
    simp [execute_proposal, htok, hallow, hr, hi]

/-- C2 (amended) witness: the standard proposal against the failing
device; the receipt evidence is the sanitized read error. -/
theorem sanitizer_applied_witness :
    cfgStd.haToken ≠ ("") ∧
    (execute_proposal cfgStd envErr proposalStd).receipt.verification.evidence =
      ("Failed to read before-state: ") ++ sanitize_error cfgStd ("boom") := by
  refine ⟨by decide, ?_⟩
  exact (sanitizer_applied_to_device_errors cfgStd envErr proposalStd
    (by decide)).2.1 ("boom") (by with_unfolding_all decide) rfl

/-- C9: for a Law-allowed proposal, a failing before-state read yields a
`failed` receipt with the read as the only device call (no invoke); a
successful read followed by a failing invoke yields a `failed` receipt
whose `before_state` is the state that was read. -/
theorem device_error_flow (cfg : Config) (env : DeviceEnv) (p : ExecutionProposal)
    (htok : cfg.haToken ≠ ("")) (hallow : (evaluate_law cfg p).allowed = true) :
    (∀ e, env.readBefore = .error e →
        (execute_proposal cfg env p).receipt.decision = ("failed") ∧
        (execute_proposal cfg env p).calls =
          [DeviceCall.read p.action.target.entity_id]) ∧
    (∀ st e, env.readBefore = .ok st → env.invoke = .error e →
        (execute_proposal cfg env p).receipt.decision = ("failed") ∧
        (execute_proposal cfg env p).receipt.before_state = some st) := by
  constructor
  · intro e hr
    simp [execute_proposal, htok, hallow, hr]
  · intro st e hr hi
    simp [execute_proposal, htok, hallow, hr, hi]

/-- C9 witness: the standard allowed proposal, once against a failing
read, once against a failing invoke. -/
theorem device_error_flow_witness :
    (evaluate_law cfgStd proposalStd).allowed = true ∧
    (execute_proposal cfgStd envErr proposalStd).receipt.decision = ("failed") ∧
    (execute_proposal cfgStd envInvokeErr proposalStd).receipt.before_state =
      some [(("state"), PyVal.str ("off"))] := by
  refine ⟨by with_unfolding_all decide, ?_, ?_⟩
  · exact ((device_error_flow cfgStd envErr proposalStd (by decide)
      (by with_unfolding_all decide)).1 ("boom") rfl).1
  · exact ((device_error_flow cfgStd envInvokeErr proposalStd (by decide)
      (by with_unfolding_all decide)).2 _ ("bam") rfl rfl).2

/-- Helper: the polling loop never returns an evidence poll count below
the count of polls already performed. -/
theorem verifyLoop_pollCount_ge (cfg : Config) (env : DeviceEnv) (v : VerifySpec)
    (deadline start : Rat) :
    ∀ (t : Rat) (ls : StateData) (k : Nat),
      k ≤ (verifyLoop cfg env v deadline start t ls k).evidence.pollCount := by
  intro t ls k
  induction t, ls, k using verifyLoop.induct cfg env v deadline start with
  | case1 t ls k h st hp hcmp =>
      rw [verifyLoop, dif_pos h, hp]
      simp [hcmp]
  | case2 t ls k h st hp hcmp ih =>
      rw [verifyLoop, dif_pos h, hp]
      simp only [hcmp, Bool.false_eq_true, if_false]
      omega
  | case3 t ls k h e hp ih =>
      rw [verifyLoop, dif_pos h, hp]
      exact Nat.le_of_succ_le ih
  | case4 t ls k h =>
      rw [verifyLoop, dif_neg h]

/-- C7 (amended): with a strictly positive effective timeout the verifier
performs at least one poll; with the deadline already past on entering the
loop (effective timeout at most 0) it performs no poll at all and returns
a timeout result. -/
theorem verifier_poll_count (cfg : Config) (env : DeviceEnv) (expected : ExpectedOutcome) :
    (0 < effective_timeout expected cfg →
       1 ≤ (verify_outcome cfg env expected).evidence.pollCount) ∧
    (effective_timeout expected cfg ≤ 0 →
       (verify_outcome cfg env expected).evidence.pollCount = 0 ∧
       (verify_outcome cfg env expected).passed = false ∧
       (verify_outcome cfg env expected).evidence.kind = ("Timeout")) := by
  constructor
  · intro hpos
    have hc : env.startTime <
        env.startTime + ((effective_timeout expected cfg : Int) : Rat) := by
      have h0 : (0 : Rat) < ((effective_timeout expected cfg : Int) : Rat) := by
        exact_mod_cast hpos
      linarith
    unfold verify_outcome
    rw [verifyLoop, dif_pos hc]
    cases hp : env.poll 0 with
    | ok st =>
        by_cases hcmp : comparePassed env.numStr env.floatParse expected.verify.equals
            (extractActual expected.verify st) = true
        · simp [hcmp]
        · have hge := verifyLoop_pollCount_ge cfg env expected.verify
            (env.startTime + ((effective_timeout expected cfg : Int) : Rat)) env.startTime
            (env.startTime + (env.pollDur 0 : Rat) + 1) st 1
          simpa [hcmp] using hge
    | error e =>
        have hge := verifyLoop_pollCount_ge cfg env expected.verify
          (env.startTime + ((effective_timeout expected cfg : Int) : Rat)) env.startTime
          (env.startTime + (env.pollDur 0 : Rat) + 1)
          [(("error"), .str (sanitize_error cfg e))] 1
        simpa using hge
  · intro hle
    have hc : ¬ (env.startTime <
        env.startTime + ((effective_timeout expected cfg : Int) : Rat)) := by
      have h0 : ((effective_timeout expected cfg : Int) : Rat) ≤ 0 := by
        exact_mod_cast hle
      linarith
    unfold verify_outcome
    rw [verifyLoop, dif_neg hc]
    exact ⟨rfl, rfl, rfl⟩

/-- C7 (amended) witness: with the policy ceiling 60 the standard
expected outcome polls at least once; with ceiling 0 it polls zero
times. -/
theorem verifier_poll_count_witness :
    0 < effective_timeout expectedStd cfgStd ∧
    1 ≤ (verify_outcome cfgStd envErr expectedStd).evidence.pollCount ∧
    effective_timeout expectedStd cfgZeroTimeout ≤ 0 ∧
    (verify_outcome cfgZeroTimeout envErr expectedStd).evidence.pollCount = 0 := by
  refine ⟨by with_unfolding_all decide, ?_, by with_unfolding_all decide, ?_⟩
  · exact (verifier_poll_count cfgStd envErr expectedStd).1 (by with_unfolding_all decide)
  · exact ((verifier_poll_count cfgZeroTimeout envErr expectedStd).2
      (by with_unfolding_all decide)).1

/-- C7 counterexample: with the policy timeout ceiling set to 0 the
deadline is already past on entering the loop, and the verifier performs
ZERO polls (not one) before returning its timeout result. -/
theorem verifier_zero_polls :
    (verify_outcome cfgZeroTimeout envErr expectedStd).evidence.pollCount = 0 ∧
    (verify_outcome cfgZeroTimeout envErr expectedStd).passed = false ∧
    (verify_outcome cfgZeroTimeout envErr expectedStd).evidence.kind = ("Timeout") := by
  have hc : ¬ (envErr.startTime <
      envErr.startTime + ((effective_timeout expectedStd cfgZeroTimeout : Int) : Rat)) := by
    with_unfolding_all decide
  unfold verify_outcome
  rw [verifyLoop, dif_neg hc]
  exact ⟨rfl, rfl, rfl⟩


/-- Helper: `updateHits` at the updated actor. -/
theorem updateHits_same (f : String → List Rat) (a : String) (v : List Rat) :
    updateHits f a v a = v := by
  simp [updateHits]

/-- Helper: `updateHits` at any other actor. -/
theorem updateHits_other (f : String → List Rat) (a : String) (v : List Rat)
    (b : String) (h : b ≠ a) : updateHits f a v b = f b := by
  simp [updateHits, h]

/-- Helper: refiltering with a larger cutoff ignores the first filter. -/
theorem filter_ge_filter_ge (l : List Rat) (c d : Rat) (hcd : c ≤ d) :
    (l.filter (fun s => decide (c ≤ s))).filter (fun s => decide (d ≤ s)) =
      l.filter (fun s => decide (d ≤ s)) := by
  induction l with
  | nil => rfl
  | cons a l ih =>
      by_cases h1 : c ≤ a <;> by_cases h2 : d ≤ a <;>
        simp [List.filter_cons, h1, h2, ih] <;> linarith

/-- Helper: one step of `runLimiter`. -/
theorem runLimiter_cons (rl : RateLimiter) (a0 : String) (t : Rat)
    (rest : List (String × Rat)) :
    (runLimiter rl ((a0, t) :: rest)).2 =
      (a0, t, (rl.accept a0 t).1.allowed) :: (runLimiter (rl.accept a0 t).2 rest).2 := by
  simp [runLimiter]

/-- Helper: `admittedTimes` over a cons. -/
theorem admittedTimes_cons (a a0 : String) (t : Rat) (b : Bool)
    (results : List (String × Rat × Bool)) :
    admittedTimes a ((a0, t, b) :: results) =
      if a0 = a ∧ b = true then t :: admittedTimes a results
      else admittedTimes a results := by
  by_cases h : a0 = a ∧ b = true <;> simp [admittedTimes, List.filterMap_cons, h]

/-- Helper: `accept` when the window is already full: refused, no hit
recorded, purged history stored. -/
theorem accept_refused (rl : RateLimiter) (a0 : String) (t : Rat)
    (h : rl.limit ≤ (purgedHits rl a0 t).length) :
    rl.accept a0 t =
      (⟨false, ("rate limit exceeded")⟩,
       { rl with hits := updateHits rl.hits a0 (purgedHits rl a0 t) }) := by
  simp only [RateLimiter.accept, purgedHits] at h ⊢
  rw [if_pos h]

/-- Helper: `accept` below the limit: admitted, hit recorded. -/
theorem accept_admitted (rl : RateLimiter) (a0 : String) (t : Rat)
    (h : (purgedHits rl a0 t).length < rl.limit) :
    rl.accept a0 t =
      (⟨true, ("within rate limit")⟩,
       { rl with hits := updateHits rl.hits a0 (purgedHits rl a0 t ++ [t]) }) := by
  simp only [RateLimiter.accept, purgedHits] at h ⊢
  rw [if_neg (Nat.not_le.mpr h)]

/-- Helper: refusal leaves the allowed flag false. -/
theorem accept_refused_allowed (rl : RateLimiter) (a0 : String) (t : Rat)
    (h : rl.limit ≤ (purgedHits rl a0 t).length) :
    (rl.accept a0 t).1.allowed = false := by
  rw [accept_refused rl a0 t h]

/-- Helper: refusal stores the purged history only. -/
theorem accept_refused_snd (rl : RateLimiter) (a0 : String) (t : Rat)
    (h : rl.limit ≤ (purgedHits rl a0 t).length) :
    (rl.accept a0 t).2 =
      { rl with hits := updateHits rl.hits a0 (purgedHits rl a0 t) } := by
  rw [accept_refused rl a0 t h]

/-- Helper: admission sets the allowed flag. -/
theorem accept_admitted_allowed (rl : RateLimiter) (a0 : String) (t : Rat)
    (h : (purgedHits rl a0 t).length < rl.limit) :
    (rl.accept a0 t).1.allowed = true := by
  rw [accept_admitted rl a0 t h]

/-- Helper: admission appends the new hit to the purged history. -/
theorem accept_admitted_snd (rl : RateLimiter) (a0 : String) (t : Rat)
    (h : (purgedHits rl a0 t).length < rl.limit) :
    (rl.accept a0 t).2 =
      { rl with hits := updateHits rl.hits a0 (purgedHits rl a0 t ++ [t]) } := by
  rw [accept_admitted rl a0 t h]

/-- Helper: the sliding-window invariant of the rate limiter, generalized
over a partial run.  `A` is the per-actor list of already-admitted
timestamps, `m` a lower bound on all remaining call times.  Invariants:
each stored history is a cutoff-filter of the admitted times with cutoff
at most `m - window`, all admitted times are at most `m`, and every
window of the configured width holds at most `limit` admitted times. -/
theorem runLimiter_aux (trace : List (String × Rat)) :
    ∀ (rl : RateLimiter) (A : String → List Rat) (m : Rat),
      0 ≤ rl.window_seconds →
      List.Chain (fun x y => x ≤ y) m (trace.map (fun c => c.2)) →
      (∀ b, ∃ c, c ≤ m - rl.window_seconds ∧
          rl.hits b = (A b).filter (fun s => decide (c ≤ s))) →
      (∀ b, ∀ s ∈ A b, s ≤ m) →
      (∀ b y, windCount rl.window_seconds y (A b) ≤ rl.limit) →
      ∀ a x, windCount rl.window_seconds x
          (A a ++ admittedTimes a (runLimiter rl trace).2) ≤ rl.limit := by
  induction trace with
  | nil =>
      intro rl A m _ _ _ _ hWB a x
      simpa [runLimiter, admittedTimes] using hWB a x
  | cons call rest ih =>
      obtain ⟨a0, t⟩ := call
      intro rl A m hw hchain hcut hbound hWB a x
      rw [List.map_cons, List.chain_cons] at hchain
      obtain ⟨hmt, hchain'⟩ := hchain
      have hmt' : m ≤ t := hmt
      have hwsub : m - rl.window_seconds ≤ t - rl.window_seconds := by linarith
      obtain ⟨c0, hc0, hhits0⟩ := hcut a0
      have hkept : purgedHits rl a0 t =
          (A a0).filter (fun s => decide (t - rl.window_seconds ≤ s)) := by
        rw [purgedHits, hhits0]
        exact filter_ge_filter_ge _ _ _ (le_trans hc0 hwsub)
      rw [runLimiter_cons]
      by_cases hfull : rl.limit ≤ (purgedHits rl a0 t).length
      · -- refused: nothing admitted, history purged
        rw [accept_refused_allowed rl a0 t hfull, accept_refused_snd rl a0 t hfull,
          admittedTimes_cons, if_neg (by simp)]
        refine ih { rl with hits := updateHits rl.hits a0 (purgedHits rl a0 t) }
          A t hw hchain' ?_ (fun b s hs => le_trans (hbound b s hs) hmt') hWB a x
        intro b
        by_cases hb : b = a0
        · subst hb
          refine ⟨t - rl.window_seconds, le_refl _, ?_⟩
          show updateHits rl.hits b (purgedHits rl b t) b = _
          rw [updateHits_same]
          exact hkept
        · obtain ⟨c, hc, hh⟩ := hcut b
          refine ⟨c, le_trans hc hwsub, ?_⟩
          show updateHits rl.hits a0 (purgedHits rl a0 t) b = _
          rw [updateHits_other _ _ _ _ hb]
          exact hh
      · -- admitted: t is appended to the history and to the admitted times
        have hlt := Nat.lt_of_not_le hfull
        have hft : List.filter (fun s => decide (t - rl.window_seconds ≤ s)) [t] = [t] := by
          simp <;> linarith
        have hcutNew : ∀ b, ∃ c, c ≤ t - rl.window_seconds ∧
            updateHits rl.hits a0 (purgedHits rl a0 t ++ [t]) b =
              ((updateHits A a0 (A a0 ++ [t])) b).filter
                (fun s => decide (c ≤ s)) := by
          intro b
          by_cases hb : b = a0
          · subst hb
            refine ⟨t - rl.window_seconds, le_refl _, ?_⟩
            rw [updateHits_same, updateHits_same, List.filter_append, hft, hkept]
          · obtain ⟨c, hc, hh⟩ := hcut b
            refine ⟨c, le_trans hc hwsub, ?_⟩
            rw [updateHits_other _ _ _ _ hb, updateHits_other _ _ _ _ hb]
            exact hh
        have hboundNew : ∀ b, ∀ s ∈ (updateHits A a0 (A a0 ++ [t])) b, s ≤ t := by
          intro b s hs
          by_cases hb : b = a0
          · subst hb
            rw [updateHits_same] at hs
            rcases List.mem_append.mp hs with h | h
            · exact le_trans (hbound _ s h) hmt'
            · have hst : s = t := by simpa using h
              exact le_of_eq hst
          · rw [updateHits_other _ _ _ _ hb] at hs
            exact le_trans (hbound b s hs) hmt'
        have hWBNew : ∀ b y, windCount rl.window_seconds y
            ((updateHits A a0 (A a0 ++ [t])) b) ≤ rl.limit := by
          intro b y
          by_cases hb : b = a0
          · subst hb
            rw [updateHits_same, windCount, List.countP_append]
            by_cases hin : y ≤ t ∧ t ≤ y + rl.window_seconds
            · have hcount : (A b).countP
                  (fun s => decide (y ≤ s ∧ s ≤ y + rl.window_seconds)) ≤
                  (A b).countP (fun s => decide (t - rl.window_seconds ≤ s)) := by
                refine List.countP_mono_left (fun s _ hp => ?_)
                have hp' := of_decide_eq_true hp
                refine decide_eq_true ?_
                obtain ⟨h1, _⟩ := hp'
                obtain ⟨_, h4⟩ := hin
                linarith
              have hkeptlen : (A b).countP
                  (fun s => decide (t - rl.window_seconds ≤ s)) =
                  (purgedHits rl b t).length := by
                rw [hkept, List.countP_eq_length_filter]
              have hone : List.countP
                  (fun s => decide (y ≤ s ∧ s ≤ y + rl.window_seconds)) [t] = 1 := by
                simp [hin]
              omega
            · have hzero : List.countP
                  (fun s => decide (y ≤ s ∧ s ≤ y + rl.window_seconds)) [t] = 0 := by
                simp [hin]
              have hA := hWB b y
              rw [windCount] at hA
              omega
          · rw [updateHits_other _ _ _ _ hb]
            exact hWB b y
        rw [accept_admitted_allowed rl a0 t hlt, accept_admitted_snd rl a0 t hlt,
          admittedTimes_cons]
        by_cases ha : a0 = a
        · rw [if_pos ⟨ha, rfl⟩]
          subst ha
          have hstep := ih { rl with hits := updateHits rl.hits a0 (purgedHits rl a0 t ++ [t]) }
            (updateHits A a0 (A a0 ++ [t])) t hw hchain' hcutNew hboundNew hWBNew a0 x
          rw [updateHits_same] at hstep
          rw [List.append_cons]
          exact hstep
        · rw [if_neg (fun hcon => ha hcon.1)]
          have hstep := ih { rl with hits := updateHits rl.hits a0 (purgedHits rl a0 t ++ [t]) }
            (updateHits A a0 (A a0 ++ [t])) t hw hchain' hcutNew hboundNew hWBNew a x
          rw [updateHits_other A a0 _ a (fun hh => ha hh.symm)] at hstep
          exact hstep

/-- C5 (amended): when accept calls carry nondecreasing timestamps — as
they do under the wall clock the gate passes — the limiter admits at most
`limit` calls per actor inside any closed window of width
`window_seconds`; and any call that still finds `limit` hits in the
window is refused with reason `rate limit exceeded`, storing only the
purged history (no hit is recorded). -/
theorem rate_limiter_sliding_window (limit : Nat) (w : Rat)
    (trace : List (String × Rat)) (hw : 0 ≤ w)
    (hmono : (trace.map (fun c => c.2)).Chain' (fun p q => p ≤ q)) :
    (∀ a x, windCount w x
        (admittedTimes a (runLimiter (mkRateLimiter limit w) trace).2) ≤ limit) ∧
    (∀ (rl : RateLimiter) (actor : String) (t : Rat),
        rl.limit ≤ (purgedHits rl actor t).length →
        (rl.accept actor t).1 = ⟨false, ("rate limit exceeded")⟩ ∧
        (rl.accept actor t).2.hits actor = purgedHits rl actor t) := by
  constructor
  · intro a x
    cases trace with
    | nil => simp [runLimiter, admittedTimes, windCount]
    | cons c rest =>
        obtain ⟨a0, t⟩ := c
        refine runLimiter_aux ((a0, t) :: rest) (mkRateLimiter limit w)
          (fun _ => []) t hw ?_ ?_ ?_ ?_ a x
        · rw [List.map_cons]
          rw [List.map_cons] at hmono
          exact List.Chain.cons (le_refl _) hmono
        · intro b
          exact ⟨t - w, le_refl _, rfl⟩
        · intro b s hs
          simp at hs
        · intro b y
          simp [windCount]
  · intro rl actor t h
    rw [accept_refused rl actor t h]
    exact ⟨rfl, updateHits_same _ _ _⟩

/-- C5 (amended) witness: three monotone calls, all windows bounded by
the limit. -/
theorem rate_limiter_sliding_window_witness :
    (0 : Rat) ≤ 60 ∧
    windCount 60 0 (admittedTimes ("a")
      (runLimiter (mkRateLimiter 2 60)
        [(("a"), 1), (("a"), 11), (("a"), 21)]).2) ≤ 2 := by
  refine ⟨by norm_num, ?_⟩
  exact (rate_limiter_sliding_window 2 60 [(("a"), 1), (("a"), 11), (("a"), 21)]
    (by norm_num) (by norm_num [List.chain'_cons])).1 ("a") 0

/-- C5 counterexample: with calls at times 1, 31, 101, 171, 51 (the last
one out of order, as the `accept` API permits) and `limit=2, window=60`,
all five calls are admitted and the closed window `[1, 61]` contains
THREE admitted hits — more than the limit. -/
theorem rate_limiter_any_window_violated :
    ((runLimiter (mkRateLimiter 2 60)
        [(("a"), 1), (("a"), 31), (("a"), 101), (("a"), 171), (("a"), 51)]).2.map
      (fun r => r.2.2) = [true, true, true, true, true]) ∧
    2 < windCount 60 1 (admittedTimes ("a")
      (runLimiter (mkRateLimiter 2 60)
        [(("a"), 1), (("a"), 31), (("a"), 101), (("a"), 171), (("a"), 51)]).2) := by
  with_unfolding_all decide
